import Mathlib

/-!
  # Verification of the pv-switcher decision engine

  Shallow embedding of `src/py/control.py` (PV surplus relay controller).

  Conventions of the embedding:
  * Python integers are `Int` (or `Nat` where the source value is a
    non-negative register / digit string); Python floats that appear here
    (scaling factors) are modelled as `Rat`, since the claims concern exact
    values such as `1.0`, not rounding.
  * Module-level configuration globals (`threshold`, `minimum_on_time`, ...)
    become explicit parameters of the embedded functions; the source's
    default values are kept as named constants for concrete instantiation.
  * Fallible external collaborators (modbus meter, HTTP meter, weather API,
    log file) are modelled by passing in the outcome of the external call;
    exception propagation in the cycle is an `Except` computation, and a bare
    `except:` that swallows errors is a total function on the outcome type.
  * Python dynamic typing matters for the second power meter, whose read
    returns a *string* on success; we embed the relevant fragment of Python
    values (`PyVal`) and the `+` / `>` operators on them, which raise
    `TypeError` on mixed `int`/`str` operands.
-/

namespace PvSwitcher

/-! ## Configuration constants (module-level globals in control.py) -/

/-- Source: `threshold = 1400` (normalized switching threshold in Watt). -/
def threshold : Int := 1400

/-- Source: `interval = 10` (minutes between runs while OFF). -/
def interval : Nat := 10

/-- Source: `minimum_on_time = 20` (minutes). -/
def minimum_on_time : Nat := 20

/-- Source: `maximum_on_time = 40` (minutes). -/
def maximum_on_time : Nat := 40

/-- Source: `periods = int(maximum_on_time / minimum_on_time)` — Python true
division of two positive ints followed by `int(...)` truncation, which for
non-negative operands is floor division, i.e. `Nat` division. -/
def periodsOf (maxOn minOn : Nat) : Nat := maxOn / minOn

/-! ## A fragment of Python values

`get_second_power` returns `match.group(1)` (a `str`) on a successful read
and the `int` `0` otherwise, so the main loop's `power1 + power2` and
`power > thresh` operate on possibly mixed `int`/`str` operands. -/

/-- Python values flowing through the power aggregation: ints and strings. -/
inductive PyVal where
  | intV : Int → PyVal
  | strV : String → PyVal
deriving DecidableEq, Repr

/-- Python `+` on the embedded fragment: `int + int` adds, `str + str`
concatenates, mixed operands raise `TypeError`. -/
def pyAdd : PyVal → PyVal → Except String PyVal
  | PyVal.intV a, PyVal.intV b => Except.ok (PyVal.intV (a + b))
  | PyVal.strV a, PyVal.strV b => Except.ok (PyVal.strV (a ++ b))
  | PyVal.intV _, PyVal.strV _ => Except.error "TypeError: unsupported operand type(s) for +: int and str"
  | PyVal.strV _, PyVal.intV _ => Except.error "TypeError: can only concatenate str (not int) to str"

/-- Python `>` between a value and an `int`: comparing `str > int` raises
`TypeError`. -/
def pyGT : PyVal → Int → Except String Bool
  | PyVal.intV a, b => Except.ok (decide (a > b))
  | PyVal.strV _, _ => Except.error "TypeError: not supported between instances of str and int"

/-! ## Power meters -/

/-- Outcome of `tp.read_holding_registers(register_to_read, number_of_words)`
with `number_of_words = 2`: either the two 16-bit registers (non-negative) or
a falsy result on failure. -/
def ModbusResult := Option (Nat × Nat)

/-- Source: `get_current_power` — returns `regs[1]` when the modbus read
yields registers, else prints the error and returns `0`. -/
def get_current_power : Option (Nat × Nat) → Nat
  | some regs => regs.2
  | none => 0

/-- Outcome of the HTTP read of the secondary meter: the request may raise,
the response text may not match the regex
`".*Leistung\x7bm\x7d(\d+) W.*"`, or it matches with `group(1)` a digit
string. -/
inductive SecondMeterResult where
  | failed : SecondMeterResult
  | noMatch : SecondMeterResult
  | matched : String → SecondMeterResult
deriving DecidableEq, Repr

/-- Source: `get_second_power` — on a successful regex match the function
returns `match.group(1)`, which is a `str`; on no match or any exception it
returns the `int` `0`. (The docstring claims an integer is returned; the
code returns the raw group string.) -/
def get_second_power : SecondMeterResult → PyVal
  | SecondMeterResult.failed => PyVal.intV 0
  | SecondMeterResult.noMatch => PyVal.intV 0
  | SecondMeterResult.matched digits => PyVal.strV digits

/-- Decimal value of a digit string (the regex group `(\d+)` only ever
matches decimal digits). -/
def decimalValue : List Char → Nat → Nat
  | [], acc => acc
  | c :: rest, acc => decimalValue rest (acc * 10 + (c.toNat - 48))

/-- Reading of `get_second_power`'s own docstring ("returns: current power,
as an integer, in Watt"): the matched digit group parsed as an integer. Used
only to state the divergence between the code and its documentation. -/
def get_second_power_docstring : SecondMeterResult → Int
  | SecondMeterResult.failed => 0
  | SecondMeterResult.noMatch => 0
  | SecondMeterResult.matched digits => (decimalValue digits.toList 0 : Nat)

/-! ## Scaling factors and threshold -/

/-- Source: `load_scaling_factors` — reads lines until EOF; each line is
independently parsed (`float(line.strip())`) and appended on success, while a
line that fails to parse is skipped by `except: pass`. The input is the
per-line parse outcome (`some q` when `float` succeeds). -/
def load_scaling_factors (lines : List (Option Rat)) : List Rat :=
  lines.filterMap id

/-- Python `int(x)` on a real value: truncation toward zero. For a rational
`q` with positive denominator, `q.num.div q.den` (T-division) truncates
toward zero. -/
def pyTrunc (q : Rat) : Int := q.num.tdiv (q.den : Int)

/-- Source: the `try: scaling_factor = scaling_factors[yday] except:
scaling_factor = 1` block of `get_current_threshold`: list indexing with any
failure (out of range / empty table) giving `1`. -/
def lookup_scaling_factor (yday : Nat) (factors : List Rat) : Rat :=
  match factors.get? yday with
  | some f => f
  | none => 1

/-- Source: `get_current_threshold` — `int(threshold * scaling_factor)` with
the scaling factor looked up at index `tm_yday` and defaulting to `1` on any
lookup failure. `base` is the module-level `threshold` global. -/
def get_current_threshold (base : Int) (yday : Nat) (factors : List Rat) : Int :=
  pyTrunc ((base : Rat) * lookup_scaling_factor yday factors)

/-! ## Weather gate (`get_weather_prediction`) -/

/-- One entry of the hourly forecast sequence: `h['dt']` and `h['clouds']`. -/
structure HourEntry where
  dt : Int
  clouds : Int
deriving DecidableEq, Repr

/-- The parsed OpenWeatherMap response: `json['cod']`, `json['current']['dt']`,
`json['current']['sunset']` and the `json['hourly']` sequence. Transport,
JSON-parsing and missing-field errors are the `Except.error` case of the
query outcome fed to `get_weather_prediction`. -/
structure WeatherDoc where
  cod : Int
  currentDt : Int
  sunset : Int
  hourly : List HourEntry
deriving DecidableEq, Repr

/-- Outcome of the `for h in json['hourly']` loop in the source. For each
entry: `if h_time < current_time: continue`; `if current_time - h_time <
3600: next_hour = h; break`; otherwise `if next_hour is None: return True`
(at that point `next_hour` is always `None`, so reaching the third branch
returns early). Exhausting the sequence leaves `next_hour = None`. -/
inductive NextHourOutcome where
  | found : HourEntry → NextHourOutcome
  | earlyTrue : NextHourOutcome
  | exhausted : NextHourOutcome
deriving DecidableEq, Repr

/-- The hourly scan of the source, literally: note the comparison is
`current_time - h_time < 3600` (as in the code), not
`h_time - current_time < 3600`. -/
def find_next_hour (currentTime : Int) : List HourEntry → NextHourOutcome
  | [] => NextHourOutcome.exhausted
  | h :: rest =>
    if h.dt < currentTime then find_next_hour currentTime rest
    else if currentTime - h.dt < 3600 then NextHourOutcome.found h
    else NextHourOutcome.earlyTrue

/-- Source: `get_weather_prediction(over_threshold)`.
`owAppid = none` models `ow_appid is None` (gate disabled). When enabled,
the whole body sits in `try: ... except Exception: ... return True`, so a
failed query, a non-200 `cod` (explicitly raised) and the `TypeError` from
`next_hour['clouds']` when the scan exhausted with `next_hour = None` all
return `True`. Otherwise the decision is
`sundown > 2*minimum_on_time and clouds < 100` with
`sundown = int((current['sunset'] - current['dt']) / 60)`.
The `over_threshold` parameter is never read by the body. -/
def get_weather_prediction (owAppid : Option String) (minOn : Nat)
    (query : Except String WeatherDoc) (over_threshold : Bool) : Bool :=
  match owAppid with
  | none => true
  | some _ =>
    match query with
    | Except.error _ => true
    | Except.ok j =>
      if j.cod ≠ 200 then true
      else
        match find_next_hour j.currentDt j.hourly with
        | NextHourOutcome.earlyTrue => true
        | NextHourOutcome.exhausted => true
        | NextHourOutcome.found h =>
          let sundown : Int := (j.sunset - j.currentDt).tdiv 60
          decide (sundown > 2 * (minOn : Int)) && decide (h.clouds < 100)

/-- Spec-side reading of the WeatherGate contract, written from the spec's
words for comparison with `get_weather_prediction`: locate the first
forecast entry whose timestamp is ≥ the current observation's timestamp
*and within one hour of it*; if the sequence is exhausted before any entry
satisfies this, admit. -/
def spec_find_next_hour (currentTime : Int) : List HourEntry → Option HourEntry
  | [] => none
  | h :: rest =>
    if h.dt ≥ currentTime ∧ h.dt - currentTime < 3600 then some h
    else spec_find_next_hour currentTime rest

/-- Spec-side WeatherGate decision on a successfully fetched document, from
the spec's words (§4.4, steps 2-4). -/
def spec_is_stable (minOn : Nat) (j : WeatherDoc) : Bool :=
  match spec_find_next_hour j.currentDt j.hourly with
  | none => true
  | some h =>
    decide ((j.sunset - j.currentDt).tdiv 60 > 2 * (minOn : Int)) && decide (h.clouds < 100)

/-! ## The main-loop state machine -/

/-- The mutable loop state of `__main__`: the relay (set by
`engage`/`disengage`), the on-period `counter` and the `day` string from
`strftime("%Y-%m-%d", ...)`. Initial state: relay off, `counter = 0`,
`day` = start date. -/
structure LoopState where
  engaged : Bool
  counter : Nat
  day : String
deriving DecidableEq, Repr

/-- The per-cycle environment the decision reads: the aggregated power and
effective threshold for this cycle, the weather admission, and the date
observed by `strftime` after the OFF-branch sleep. -/
structure CycleInput where
  power : Int
  thresh : Int
  weather_ok : Bool
  observedDay : String
deriving DecidableEq, Repr

/-- Source: `ok = (power > thresh) and weather_ok and counter < periods`. -/
def eligible (periods : Nat) (s : LoopState) (i : CycleInput) : Bool :=
  decide (i.power > i.thresh) && i.weather_ok && decide (s.counter < periods)

/-- One iteration of the `while True` loop, given the decision inputs: if
`ok`, engage, dwell `minimum_on_time`, `counter += 1`; else disengage, sleep
`interval`, and only then compare the freshly observed date with `day`,
resetting `counter` on a date change. Returns the new state and the `ok`
flag (the engage/disengage decision of this cycle). -/
def loopStep (periods : Nat) (s : LoopState) (i : CycleInput) : LoopState × Bool :=
  if eligible periods s i then
    ({ engaged := true, counter := s.counter + 1, day := s.day }, true)
  else
    if s.day ≠ i.observedDay then
      ({ engaged := false, counter := 0, day := i.observedDay }, false)
    else
      ({ engaged := false, counter := s.counter, day := s.day }, false)

/-- Iterate `loopStep` over a list of cycle inputs, collecting the
engage/disengage decision of every cycle. -/
def runCycles (periods : Nat) (s : LoopState) : List CycleInput → LoopState × List Bool
  | [] => (s, [])
  | i :: rest =>
    let step := loopStep periods s i
    let r := runCycles periods step.1 rest
    (r.1, step.2 :: r.2)

/-- A cycle input on which surplus and weather both admit. -/
def admits (i : CycleInput) : Prop := i.power > i.thresh ∧ i.weather_ok = true

instance (i : CycleInput) : Decidable (admits i) := by
  unfold admits
  infer_instance

/-! ## One full cycle of the main loop, with exception propagation

The body of `while True:` has no `try`/`except` of its own, so any exception
raised by a statement in it terminates the loop (and, the signal handler
apart, the process). The fallible statements are the mixed-type
`power1 + power2` / `power > thresh` (a `TypeError` when `get_second_power`
returned a matched string) and `log(...)`, whose `open`/`write` is not
guarded inside `log`. -/

/-- The external world of one cycle: the day-of-year and the loaded scaling
factors seen by `get_current_threshold`, the outcomes of the three network
reads, the outcome of the log-file append, and the date observed after the
OFF-branch sleep. -/
structure CycleExt where
  yday : Nat
  factors : List Rat
  modbus : Option (Nat × Nat)
  secondHttp : SecondMeterResult
  weatherQuery : Except String WeatherDoc
  logResult : Except String Unit
  observedDay : String

/-- Source: the `log(power, power1, power2, threshold, ok)` function opens
the log file for append and writes one line with no exception handling, so
the open/write outcome propagates to the caller unchanged. -/
def log (outcome : Except String Unit) : Except String Unit := outcome

/-- One iteration of the main loop with its exception semantics, following
the statement order of the source: threshold, `power1`, `power2`,
`power = power1 + power2`, weather (passed `power > thresh`),
`ok = (power > thresh) and weather_ok and counter < periods`, `log`, then
the engage/dwell or disengage/sleep/date-check branch. An `Except.error`
is an uncaught exception terminating the loop. -/
def runCycle (base : Int) (periods : Nat) (owAppid : Option String) (minOn : Nat)
    (s : LoopState) (ext : CycleExt) : Except String (LoopState × Bool) :=
  let thresh := get_current_threshold base ext.yday ext.factors
  let power1 := get_current_power ext.modbus
  let power2 := get_second_power ext.secondHttp
  match pyAdd (PyVal.intV (power1 : Int)) power2 with
  | Except.error e => Except.error e
  | Except.ok power =>
    match pyGT power thresh with
    | Except.error e => Except.error e
    | Except.ok surplus =>
      let weather_ok := get_weather_prediction owAppid minOn ext.weatherQuery surplus
      let ok := surplus && weather_ok && decide (s.counter < periods)
      match log ext.logResult with
      | Except.error e => Except.error e
      | Except.ok _ =>
        if ok then
          Except.ok ({ engaged := true, counter := s.counter + 1, day := s.day }, true)
        else if s.day ≠ ext.observedDay then
          Except.ok ({ engaged := false, counter := 0, day := ext.observedDay }, false)
        else
          Except.ok ({ engaged := false, counter := s.counter, day := s.day }, false)

/-! ## Process-level trace: signals and shutdown -/

/-- Observable relay / process actions: calls to `engage()`, `disengage()`
and `sys.exit(code)`. -/
inductive Action where
  | engageAct : Action
  | disengageAct : Action
  | exitAct : Nat → Action
deriving DecidableEq, Repr

/-- The relay action a cycle performs, from its `ok` decision. -/
def cycleAction (ok : Bool) : List Action :=
  if ok then [Action.engageAct] else [Action.disengageAct]

/-- Relay actions emitted by a run of consecutive cycles. -/
def loopTrace (periods : Nat) (s : LoopState) : List CycleInput → List Action
  | [] => []
  | i :: rest =>
    cycleAction (loopStep periods s i).2 ++ loopTrace periods (loopStep periods s i).1 rest

/-- Source: `shutdown_handler(signum, stackframe)` — registered for both
SIGTERM and SIGINT — calls `disengage()` and then `sys.exit(0)`,
unconditionally: it does not inspect any loop state. The state argument
records the state at which the signal arrives. -/
def shutdown_handler (s : LoopState) : List Action :=
  [Action.disengageAct, Action.exitAct 0]

/-- A process run in which the termination signal arrives after the given
cycles have completed: the cycles' relay actions followed by the handler's
actions; `sys.exit` ends the process, so nothing follows. -/
def runWithSignal (periods : Nat) (s : LoopState) (inputs : List CycleInput) : List Action :=
  loopTrace periods s inputs ++ shutdown_handler (runCycles periods s inputs).1

/-! ## Concrete fixtures used by witnesses and counterexamples -/

/-- A start state: relay off, counter 0, start date. -/
def s0 : LoopState := { engaged := false, counter := 0, day := "2026-10-11" }

/-- An eligible-admitting cycle input: surplus and weather both admit, same
calendar date. -/
def iOn : CycleInput := { power := 1500, thresh := 1200, weather_ok := true, observedDay := "2026-10-11" }

/-- A forecast document whose first future hourly entry lies two hours ahead
with full cloud cover: per the spec no entry is "within one hour" of the
observation, per the code the entry is still selected. -/
def doc6 : WeatherDoc :=
  { cod := 200, currentDt := 0, sunset := 100000, hourly := [{ dt := 7200, clouds := 100 }] }

/-- A cycle environment in which every sensor fails (modbus read failure,
second-meter request exception, weather query error, empty scaling table)
but the log append succeeds. -/
def extAllFail : CycleExt :=
  { yday := 280, factors := [], modbus := none,
    secondHttp := SecondMeterResult.failed,
    weatherQuery := Except.error "timeout",
    logResult := Except.ok (), observedDay := "2026-10-11" }

/-- The same cycle environment except that the log file cannot be written. -/
def extLogFail : CycleExt :=
  { extAllFail with logResult := Except.error "OSError: disk full" }

/-- A two-meter cycle environment in which both reads succeed: the modbus
meter reports 700 W (`regs[1]`) and the secondary meter's response matches
the regex with digit group `"600"`. -/
def extTwoMeters : CycleExt :=
  { yday := 280, factors := [], modbus := some (0, 700),
    secondHttp := SecondMeterResult.matched "600",
    weatherQuery := Except.error "timeout",
    logResult := Except.ok (), observedDay := "2026-10-11" }

/-- A mid-day state: relay off, one on-period consumed. -/
def sMid : LoopState := { engaged := false, counter := 1, day := "2026-10-11" }

/-- A non-eligible cycle input observed on the next calendar date. -/
def iOffNewDay : CycleInput :=
  { power := 800, thresh := 1200, weather_ok := true, observedDay := "2026-10-12" }

end PvSwitcher

deriving instance DecidableEq for Except

namespace PvSwitcher

/-! ## Helper lemmas -/

theorem pyTrunc_intCast (n : Int) : pyTrunc ((n : Rat)) = n := by
  simp [pyTrunc, Rat.num_intCast, Rat.den_intCast]

theorem lookup_scaling_factor_out_of_range (d : Nat) (factors : List Rat)
    (h : factors.length ≤ d) : lookup_scaling_factor d factors = 1 := by
  unfold lookup_scaling_factor
  rw [List.get?_eq_none.mpr h]

theorem lookup_scaling_factor_in_range (d : Nat) (factors : List Rat)
    (h : d < factors.length) :
    lookup_scaling_factor d factors = factors.get ⟨d, h⟩ := by
  unfold lookup_scaling_factor
  rw [List.get?_eq_get h]

theorem get_current_threshold_out_of_range (base : Int) (d : Nat) (factors : List Rat)
    (h : factors.length ≤ d) : get_current_threshold base d factors = base := by
  unfold get_current_threshold
  rw [lookup_scaling_factor_out_of_range d factors h, mul_one, pyTrunc_intCast]

theorem lookup_scaling_factor_eq_getD (d : Nat) (factors : List Rat) :
    lookup_scaling_factor d factors = factors.getD d 1 := by
  unfold lookup_scaling_factor List.getD
  cases factors.get? d <;> simp

/-! ## Claims -/

/-- C4: `effective_threshold(day_of_year)` equals
`base_threshold * scaling_factor(day_of_year)` truncated toward zero to an
integer, where any scaling-factor lookup failure (index out of range, empty
table) yields factor `1.0` instead of an error; consequently, for every day
absent from the scaling table (index past the end of the factor list), the
effective threshold equals the base threshold. -/
theorem C4_effective_threshold (base : Int) (d : Nat) (factors : List Rat) :
    get_current_threshold base d factors = pyTrunc ((base : Rat) * factors.getD d 1) ∧
    (factors.length ≤ d → get_current_threshold base d factors = base) := by
  constructor
  · unfold get_current_threshold
    rw [lookup_scaling_factor_eq_getD]
  · intro h
    exact get_current_threshold_out_of_range base d factors h

/-- Witness for C4 at the source's base threshold 1400, day-of-year 280 and
an empty scaling table. -/
theorem C4_witness : get_current_threshold 1400 280 [] = 1400 :=
  (C4_effective_threshold 1400 280 []).2 (by decide)

/-- C9: for every day-of-year `d ≥ 1` (as produced by `tm_yday`), the
scaling factor applied is the entry at 0-based index `d` of the loaded
factor list, i.e. the `(d+1)`-th successfully parsed line of the scaling
file; the first parsed line (index 0) is never used for any day (changing it
never changes any day's threshold), and a table with exactly `d` parsed
entries falls back to factor `1.0` — hence base threshold — for day `d`. -/
theorem C9_scaling_index_convention (d : Nat) (hd : 1 ≤ d) (base : Int) :
    (∀ (x y : Rat) (rest : List Rat),
        get_current_threshold base d (x :: rest) = get_current_threshold base d (y :: rest)) ∧
    (∀ lines : List (Option Rat), (load_scaling_factors lines).length = d →
        get_current_threshold base d (load_scaling_factors lines) = base) ∧
    (∀ lines : List (Option Rat), ∀ h : d < (load_scaling_factors lines).length,
        lookup_scaling_factor d (load_scaling_factors lines)
          = (load_scaling_factors lines).get ⟨d, h⟩) := by
  refine ⟨?_, ?_, ?_⟩
  · intro x y rest
    obtain ⟨k, rfl⟩ : ∃ k, d = k + 1 := ⟨d - 1, (Nat.succ_pred_eq_of_pos hd).symm⟩
    unfold get_current_threshold lookup_scaling_factor
    simp [List.get?_cons_succ]
  · intro lines hlen
    exact get_current_threshold_out_of_range base d _ (le_of_eq hlen)
  · intro lines h
    exact lookup_scaling_factor_in_range d _ h

/-- Witness for C9 at day 1 with a single-line scaling file: the one parsed
line is index 0, so day 1 falls outside the table and the base threshold is
used. -/
theorem C9_witness :
    get_current_threshold 1400 1 (load_scaling_factors [some 2]) = 1400 :=
  ((C9_scaling_index_convention 1 (by decide) 1400).2.1 [some 2]) (by decide)

/-- C5: the weather gate fails open — when disabled (`ow_appid is None`)
`get_weather_prediction` returns `true` for every input, and when enabled
any error raised by the forecast query (transport, parsing, missing field,
modelled as the `Except.error` outcome) also yields `true`. -/
theorem C5_weather_fails_open :
    (∀ (minOn : Nat) (q : Except String WeatherDoc) (b : Bool),
        get_weather_prediction none minOn q b = true) ∧
    (∀ (appid : Option String) (minOn : Nat) (e : String) (b : Bool),
        get_weather_prediction appid minOn (Except.error e) b = true) := by
  refine ⟨fun minOn q b => rfl, fun appid minOn e b => ?_⟩
  cases appid <;> rfl

/-- C10: the weather gate's result is independent of its boolean argument:
the `over_threshold` parameter is never read by the body of
`get_weather_prediction`, so for every fixed configuration and query outcome
the results at `true` and at `false` coincide. -/
theorem C10_over_threshold_unused (appid : Option String) (minOn : Nat)
    (q : Except String WeatherDoc) :
    get_weather_prediction appid minOn q true = get_weather_prediction appid minOn q false :=
  rfl

/-- C6 (evaluation of the code bug): with the gate enabled and a
successfully fetched document (`doc6`) whose only hourly entry lies two
hours after the observation with 100% cloud cover, the source selects that
entry — its guard `current_time - h_time < 3600` is vacuously true once
`h_time ≥ current_time` — and returns `false`; the spec's rule ("first
entry ≥ current and within one hour of it", exhaustion admits) yields
`true` on the same document. -/
theorem C6_within_one_hour_not_enforced :
    get_weather_prediction (some "key") 20 (Except.ok doc6) true = false ∧
    spec_is_stable 20 doc6 = true := by
  exact ⟨rfl, rfl⟩

/-! ### State-machine lemmas -/

theorem eligible_iff (periods : Nat) (s : LoopState) (i : CycleInput) :
    eligible periods s i = true ↔
      (i.power > i.thresh ∧ i.weather_ok = true ∧ s.counter < periods) := by
  unfold eligible
  simp [Bool.and_eq_true, decide_eq_true_eq, and_assoc]

theorem loopStep_eligible (periods : Nat) (s : LoopState) (i : CycleInput)
    (h : eligible periods s i = true) :
    loopStep periods s i = ({ engaged := true, counter := s.counter + 1, day := s.day }, true) := by
  unfold loopStep
  rw [h]
  rfl

theorem loopStep_not_eligible (periods : Nat) (s : LoopState) (i : CycleInput)
    (h : eligible periods s i = false) :
    (loopStep periods s i).2 = false ∧ (loopStep periods s i).1.engaged = false := by
  unfold loopStep
  rw [h]
  by_cases hday : s.day ≠ i.observedDay <;> simp [hday]

/-- Feeding consecutive admitting cycles to the loop while the counter
budget lasts: every cycle decides `true` (engage) and each increments the
counter, leaving the day untouched. -/
theorem runCycles_admitting (periods : Nat) (inputs : List CycleInput) :
    ∀ s : LoopState, (∀ i ∈ inputs, admits i) → s.counter + inputs.length ≤ periods →
      (runCycles periods s inputs).2 = List.replicate inputs.length true ∧
      (runCycles periods s inputs).1.counter = s.counter + inputs.length ∧
      (runCycles periods s inputs).1.day = s.day := by
  induction inputs with
  | nil => exact fun s _ _ => ⟨rfl, rfl, rfl⟩
  | cons i rest ih =>
    intro s hadm hle
    have hi : admits i := hadm i (List.mem_cons_self i rest)
    have hlen : s.counter + (rest.length + 1) ≤ periods := by
      simpa [List.length_cons] using hle
    have helig : eligible periods s i = true := by
      rw [eligible_iff]
      exact ⟨hi.1, hi.2, by omega⟩
    have hstep := loopStep_eligible periods s i helig
    have hrest := ih { engaged := true, counter := s.counter + 1, day := s.day }
      (fun j hj => hadm j (List.mem_cons_of_mem i hj)) (by simpa using by omega)
    unfold runCycles
    rw [hstep]
    refine ⟨?_, ?_, ?_⟩
    · simp only [List.length_cons, List.replicate_succ]
      rw [hrest.1]
    · rw [hrest.2.1]
      simp [List.length_cons]
      omega
    · exact hrest.2.2

/-- C1: with `periods = floor(maximum_on_time / minimum_on_time)`, a cycle
is eligible exactly when aggregated power exceeds the effective threshold,
the weather gate admits, and `counter < periods`; starting OFF with counter
0, feeding `periods` consecutive admitting cycles engages the relay on every
one of them and raises the counter to `periods`, and one more admitting
cycle (surplus and weather still admit) is forced OFF: the relay is
disengaged. -/
theorem C1_daily_on_budget (maxOn minOn : Nat) (periods : Nat)
    (hp : periods = periodsOf maxOn minOn) (d : String) (inputs : List CycleInput)
    (hlen : inputs.length = periods)
    (hadm : ∀ i ∈ inputs, admits i) :
    (∀ (s : LoopState) (i : CycleInput),
        eligible periods s i = true ↔
          (i.power > i.thresh ∧ i.weather_ok = true ∧ s.counter < periods)) ∧
    (runCycles periods { engaged := false, counter := 0, day := d } inputs).2
        = List.replicate periods true ∧
    (runCycles periods { engaged := false, counter := 0, day := d } inputs).1.counter
        = periods ∧
    (∀ j : CycleInput, admits j →
        (loopStep periods (runCycles periods { engaged := false, counter := 0, day := d } inputs).1 j).2
            = false ∧
        (loopStep periods (runCycles periods { engaged := false, counter := 0, day := d } inputs).1 j).1.engaged
            = false) := by
  have hrun := runCycles_admitting periods inputs
    { engaged := false, counter := 0, day := d } hadm (by simp [hlen])
  refine ⟨eligible_iff periods, ?_, ?_, ?_⟩
  · rw [hrun.1, hlen]
  · rw [hrun.2.1, hlen]
    simp
  · intro j hj
    apply loopStep_not_eligible
    have hcnt : (runCycles periods { engaged := false, counter := 0, day := d } inputs).1.counter
        = periods := by
      rw [hrun.2.1, hlen]
      simp
    cases helig : eligible periods (runCycles periods { engaged := false, counter := 0, day := d } inputs).1 j with
    | false => rfl
    | true =>
      exfalso
      have := (eligible_iff _ _ _).mp helig
      omega

/-- Witness for C1 at the source configuration (`maximum_on_time = 40`,
`minimum_on_time = 20`, so `periods = 2`) and two admitting cycles with
power 1500 W against threshold 1200 W. -/
theorem C1_witness :
    (runCycles 2 { engaged := false, counter := 0, day := "2026-10-11" } [iOn, iOn]).1.counter = 2 :=
  (C1_daily_on_budget 40 20 2 (by decide) "2026-10-11" [iOn, iOn] (by decide)
    (by decide)).2.2.1

/-- C7: the on-period counter resets to 0 exactly on the first cycle whose
OFF branch observes a calendar-date change: in a non-eligible cycle with a
changed date the counter becomes 0 and the stored day is updated; in an
eligible (ON) cycle the date check is not evaluated — the counter is
incremented, the stored day untouched, and the entire step result is
independent of the observed date; in a non-eligible cycle without a date
change the counter is unchanged. -/
theorem C7_daily_reset (periods : Nat) (s : LoopState) (i : CycleInput) :
    (eligible periods s i = false → s.day ≠ i.observedDay →
        (loopStep periods s i).1.counter = 0 ∧
        (loopStep periods s i).1.day = i.observedDay) ∧
    (eligible periods s i = true →
        (loopStep periods s i).1.counter = s.counter + 1 ∧
        (loopStep periods s i).1.day = s.day ∧
        (∀ d' : String, loopStep periods s { i with observedDay := d' } = loopStep periods s i)) ∧
    (eligible periods s i = false → s.day = i.observedDay →
        (loopStep periods s i).1.counter = s.counter ∧
        (loopStep periods s i).1.day = s.day) := by
  refine ⟨?_, ?_, ?_⟩
  · intro h hne
    unfold loopStep
    rw [h]
    simp [hne]
  · intro h
    have hstep := loopStep_eligible periods s i h
    refine ⟨by rw [hstep], by rw [hstep], ?_⟩
    intro d'
    have h' : eligible periods s { i with observedDay := d' } = true := h
    rw [loopStep_eligible periods s _ h', hstep]
  · intro h heq
    unfold loopStep
    rw [h]
    simp [heq]

/-- Witness for C7: from a mid-day OFF state with counter 1, a non-eligible
cycle observing the next date resets the counter to 0 and stores the new
date. -/
theorem C7_witness :
    (loopStep 2 sMid iOffNewDay).1.counter = 0 ∧
    (loopStep 2 sMid iOffNewDay).1.day = "2026-10-12" :=
  (C7_daily_reset 2 sMid iOffNewDay).1 (by decide) (by decide)

/-- C2 (evaluation of the code bug): when both meters read successfully —
the modbus meter 700 W and the secondary meter's response matching with
digit group "600" — `get_second_power` returns the *string* `"600"`
(`match.group(1)`, contradicting its own docstring "returns: current power,
as an integer"), so the main loop's `power = power1 + power2` raises
`TypeError` and the cycle aborts instead of aggregating. A failing second
meter does contribute exactly the integer 0, and under the docstring's
integer reading the aggregate would be `700 + 600 = 1300 > 1200` as the
claim's scenario states. -/
theorem C2_second_meter_returns_string :
    runCycle 1200 2 none 20 s0 extTwoMeters
      = Except.error "TypeError: unsupported operand type(s) for +: int and str" ∧
    pyAdd (PyVal.intV 700) (get_second_power SecondMeterResult.failed)
      = Except.ok (PyVal.intV 700) ∧
    ((get_current_power extTwoMeters.modbus : Int)
        + get_second_power_docstring extTwoMeters.secondHttp = 1300) ∧
    ((1300 : Int) > 1200) := by
  refine ⟨rfl, rfl, by decide, by decide⟩

/-- C3 (counterexample): a log-file failure is not caught anywhere — `log`
opens and writes with no `try`/`except`, and the main loop body has none —
so a cycle in which every sensor degrades safely but the log append fails
terminates with the uncaught error, contradicting the claim that
log-resource failures are reported without crashing the loop. -/
theorem C3_log_failure_terminates :
    runCycle 1400 2 none 20 s0 extLogFail = Except.error "OSError: disk full" := rfl

/-- C3 (amended): sensor failures and configuration failures never
terminate the main loop — with the log append succeeding and the secondary
meter read failing (either by exception or by a non-matching response), the
cycle completes normally for every modbus outcome, weather-query outcome,
scaling table, state and configuration; only the log path (and the
mixed-type aggregation of a *successful* second read) can abort a cycle. -/
theorem C3_failures_absorbed_except_log (base : Int) (periods : Nat)
    (owAppid : Option String) (minOn : Nat) (s : LoopState) (ext : CycleExt)
    (hlog : ext.logResult = Except.ok ())
    (hsnd : ext.secondHttp = SecondMeterResult.failed ∨
      ext.secondHttp = SecondMeterResult.noMatch) :
    ∃ out, runCycle base periods owAppid minOn s ext = Except.ok out := by
  have h2 : get_second_power ext.secondHttp = PyVal.intV 0 := by
    rcases hsnd with h | h <;> rw [h] <;> rfl
  unfold runCycle log
  rw [h2, hlog]
  simp only [pyAdd, pyGT]
  split
  · exact ⟨_, rfl⟩
  · split
    · exact ⟨_, rfl⟩
    · exact ⟨_, rfl⟩

/-- Witness for C3's amended claim: the everything-fails cycle environment
(modbus failure, second-meter exception, weather-query error, empty scaling
table) with a working log completes the cycle normally. -/
theorem C3_witness :
    ∃ out, runCycle 1400 2 none 20 s0 extAllFail = Except.ok out :=
  C3_failures_absorbed_except_log 1400 2 none 20 s0 extAllFail rfl (Or.inl rfl)

/-- C8: on receipt of a termination signal (SIGTERM and SIGINT are both
routed to `shutdown_handler`), regardless of the loop state at which it
arrives, the handler performs exactly one `disengage` and then exits with
status 0; in the process trace the `sys.exit(0)` action is the final one —
no cycle action follows the handled signal. -/
theorem C8_shutdown_disengage_exit (periods : Nat) (s : LoopState)
    (inputs : List CycleInput) :
    (∀ s' : LoopState, shutdown_handler s' = [Action.disengageAct, Action.exitAct 0]) ∧
    (shutdown_handler (runCycles periods s inputs).1).count Action.disengageAct = 1 ∧
    (runWithSignal periods s inputs).getLast? = some (Action.exitAct 0) := by
  refine ⟨fun s' => rfl, rfl, ?_⟩
  unfold runWithSignal shutdown_handler
  rw [List.getLast?_append_cons]
  rfl

end PvSwitcher
